import Mathlib

/-
Verification of the x-algorithm-score scoring and risk-classification core.

The Controversy Scanner is embedded from src/lib/scandal-detector.ts.
JavaScript regular expressions are embedded as a small pattern language
(literals, character-class repetition, alternation, option, word boundary)
with a backtracking matcher; the case-insensitive flag i is modelled by
lowercasing the subject text (all pattern literals in the source are ASCII
lowercase). The Scoring Engine source file is absent from the repository
snapshot (only its test and callers are present), so it is modelled from
the specification; those definitions carry a doc comment starting with
Modelled from the spec.
-/

/-- JavaScript regex whitespace class backslash-s. -/
def isWsChar (c : Char) : Bool :=
  c = ' ' || c = '\t' || c = '\n' || c = '\r' ||
  c.toNat = 11 || c.toNat = 12 || c.toNat = 160 || c.toNat = 0x1680 ||
  (0x2000 ≤ c.toNat && c.toNat ≤ 0x200a) ||
  c.toNat = 0x2028 || c.toNat = 0x2029 || c.toNat = 0x202f ||
  c.toNat = 0x205f || c.toNat = 0x3000 || c.toNat = 0xfeff

/-- JavaScript regex word-character class backslash-w. -/
def wordChar (c : Char) : Bool :=
  ('a' ≤ c && c ≤ 'z') || ('A' ≤ c && c ≤ 'Z') || ('0' ≤ c && c ≤ '9') || c = '_'

/-- ASCII lowercasing, modelling the case-insensitive regex flag. -/
def lowerChar (c : Char) : Char :=
  if 'A' ≤ c && c ≤ 'Z' then Char.ofNat (c.toNat + 32) else c

/-- Pattern language covering the constructs used by the rule tables of
scandal-detector.ts: literals, repetition of a character class with a
lower bound (greedy with backtracking), concatenation, alternation,
optional groups, and word boundaries. -/
inductive Pat where
  | eps : Pat
  | lit : List Char → Pat
  | rep : (Char → Bool) → Nat → Pat
  | seq : Pat → Pat → Pat
  | alt : Pat → Pat → Pat
  | opt : Pat → Pat
  | wb : Pat

/-- Match a literal prefix, returning the last consumed character and the
remaining suffix. -/
def litMatch : List Char → Option Char → List Char → Option (Option Char × List Char)
  | [], prev, s => some (prev, s)
  | _ :: _, _, [] => none
  | c :: cs, _, d :: s => if c = d then litMatch cs (some d) s else none

/-- All ways to consume a (possibly empty) run of class characters:
each element is the number consumed, the last consumed character
(or the incoming one) and the remaining suffix. -/
def repAll (p : Char → Bool) : Option Char → List Char → List (Nat × Option Char × List Char)
  | prev, [] => [(0, prev, [])]
  | prev, c :: s =>
    (0, prev, c :: s) ::
      (if p c then (repAll p (some c) s).map (fun t => (t.1 + 1, t.2)) else [])

/-- Is the next character a word character. -/
def wordNext : List Char → Bool
  | [] => false
  | c :: _ => wordChar c

/-- Is the previous character a word character. -/
def wordPrev : Option Char → Bool
  | none => false
  | some c => wordChar c

/-- Backtracking matcher: all states (last consumed character, remaining
suffix) after matching the pattern at the current position. -/
def matchP : Pat → Option Char → List Char → List (Option Char × List Char)
  | Pat.eps, prev, s => [(prev, s)]
  | Pat.lit cs, prev, s =>
    match litMatch cs prev s with
    | none => []
    | some r => [r]
  | Pat.rep p n, prev, s =>
    ((repAll p prev s).filter (fun t => n ≤ t.1)).map (fun t => t.2)
  | Pat.seq a b, prev, s =>
    (matchP a prev s).flatMap (fun r => matchP b r.1 r.2)
  | Pat.alt a b, prev, s => matchP a prev s ++ matchP b prev s
  | Pat.opt a, prev, s => (prev, s) :: matchP a prev s
  | Pat.wb, prev, s => if wordPrev prev != wordNext s then [(prev, s)] else []

/-- Search for a match starting at any position, tracking the character
before the current position for word boundaries. -/
def searchAt (p : Pat) : Option Char → List Char → Bool
  | prev, [] => !(matchP p prev []).isEmpty
  | prev, c :: s => !(matchP p prev (c :: s)).isEmpty || searchAt p (some c) s

/-- The JavaScript RegExp test method: does the pattern match anywhere. -/
def reTest (p : Pat) (s : List Char) : Bool := searchAt p none s

/-- Concatenation of a list of patterns. -/
def pseq (l : List Pat) : Pat := l.foldr Pat.seq Pat.eps

/-- Alternation of a nonempty list of patterns. -/
def palts : List Pat → Pat
  | [] => Pat.eps
  | [p] => p
  | p :: ps => Pat.alt p (palts ps)

/-- Literal pattern from a string. -/
def plit (s : String) : Pat := Pat.lit s.data

/-- The regex gap backslash-s star. -/
def ws0 : Pat := Pat.rep isWsChar 0

/-- The regex gap backslash-s plus. -/
def ws1 : Pat := Pat.rep isWsChar 1

/-- An apostrophe character (written by code point). -/
def aChar : Char := Char.ofNat 39

/-- An apostrophe literal pattern. -/
def aP : Pat := Pat.lit [aChar]

/-- An apostrophe as a string. -/
def apoS : String := String.mk [aChar]

/-- Severity levels of a controversy warning (scandal-detector.ts). -/
inductive Severity where
  | low : Severity
  | medium : Severity
  | high : Severity
  | critical : Severity
deriving DecidableEq

/-- Controversy categories (scandal-detector.ts, type ControversyCategory,
in source declaration order). -/
inductive ControversyCategory where
  | offensive_language : ControversyCategory
  | hot_button_topic : ControversyCategory
  | inflammatory_tone : ControversyCategory
  | rage_bait : ControversyCategory
  | misinfo_pattern : ControversyCategory
  | targeted_attack : ControversyCategory
  | identity_attack : ControversyCategory
deriving DecidableEq

/-- One warning per matched rule (scandal-detector.ts, ControversyWarning). -/
structure ControversyWarning where
  category : ControversyCategory
  severity : Severity
  message : String
  detail : String
  penalty : Nat
deriving DecidableEq

/-- Risk levels (scandal-detector.ts, ControversyResult riskLevel). -/
inductive RiskLevel where
  | safe : RiskLevel
  | caution : RiskLevel
  | risky : RiskLevel
  | dangerous : RiskLevel
deriving DecidableEq

/-- Aggregate scan result (scandal-detector.ts, ControversyResult). -/
structure ControversyResult where
  riskLevel : RiskLevel
  riskScore : ℚ
  warnings : List ControversyWarning
  totalPenalty : Nat

/-- One rule table entry: a pattern, its case-insensitivity flag, a
severity and an explanatory detail (scandal-detector.ts rule records). -/
structure PatternRule where
  pattern : Pat
  ci : Bool
  severity : Severity
  detail : String

/-- SEVERITY_PENALTY lookup: low 2, medium 5, high 10, critical 20. -/
def SEVERITY_PENALTY : Severity → Nat
  | Severity.low => 2
  | Severity.medium => 5
  | Severity.high => 10
  | Severity.critical => 20

/-- The violent-language rule, second entry of OFFENSIVE_PATTERNS. -/
def violentRule : PatternRule :=
  ⟨pseq [Pat.wb,
     palts [pseq [plit "kill", ws0, palts [plit "yourself", plit "urself", plit "them"]],
            pseq [plit "die", ws1, plit "in"],
            pseq [plit "hope", ws1, plit "you", ws1, plit "die"],
            pseq [plit "death", ws1, plit "threat"]],
     Pat.wb],
   true, Severity.critical,
   "Violent language triggers reports (-369x) and potential account suspension"⟩

/-- OFFENSIVE_PATTERNS rule table (scandal-detector.ts). -/
def OFFENSIVE_PATTERNS : List PatternRule :=
  [⟨pseq [Pat.wb,
      palts [pseq [plit "shut", ws0, plit "up"], plit "stfu", plit "gtfo",
             plit "idiot", plit "moron", pseq [plit "dumb", ws0, plit "ass"],
             pseq [plit "stupid", ws0, palts [plit "people", plit "person"]]],
      Pat.wb],
    true, Severity.medium,
    "Direct insults often trigger blocks/mutes (-74x penalty each)"⟩,
   violentRule,
   ⟨pseq [Pat.wb,
      palts [pseq [plit "retard", Pat.opt (plit "ed")], plit "spaz", plit "cripple"],
      Pat.wb],
    true, Severity.high,
    "Ableist language is widely reported and triggers content moderation"⟩,
   ⟨pseq [Pat.wb,
      palts [pseq [plit "trash", ws0, palts [plit "person", plit "people", plit "human"]],
             pseq [plit "garbage", ws0, palts [plit "person", plit "people", plit "human"]],
             plit "worthless"],
      Pat.wb],
    true, Severity.medium,
    "Dehumanizing language drives reports and blocks"⟩]

/-- HOT_BUTTON_PATTERNS rule table (scandal-detector.ts). -/
def HOT_BUTTON_PATTERNS : List PatternRule :=
  [⟨pseq [Pat.wb, plit "all", ws1,
      palts [plit "men", plit "women", plit "liberals", plit "conservatives",
             plit "republicans", plit "democrats"],
      ws1, palts [plit "are", plit "should"], Pat.wb],
    true, Severity.high,
    "Broad group generalizations trigger mass reports from the targeted group"⟩,
   ⟨pseq [Pat.wb,
      palts [pseq [plit "fake", ws1, plit "news"],
             pseq [plit "mainstream", ws1, plit "media", ws1, plit "lies"],
             pseq [plit "msm", ws1, plit "is", ws1, palts [plit "lying", plit "dead"]]],
      Pat.wb],
    true, Severity.medium,
    "Media criticism patterns often get flagged as misinformation"⟩,
   ⟨pseq [Pat.wb,
      palts [pseq [plit "wake", ws1, plit "up", ws1, plit "sheeple"],
             pseq [plit "sheep", ws1, plit "mentality"],
             pseq [plit "npc", Pat.opt (plit "s"), Pat.wb]]],
    true, Severity.medium,
    "Dismissive language about others" ++ apoS ++ " intelligence triggers blocks (-74x)"⟩]

/-- The character class of the excessive-caps rule: uppercase A-Z or
regex whitespace. -/
def capsClass (c : Char) : Bool := ('A' ≤ c && c ≤ 'Z') || isWsChar c

/-- The excessive-caps rule, fourth entry of INFLAMMATORY_PATTERNS; its
source regex carries no case-insensitive flag. -/
def capsRule : PatternRule :=
  ⟨palts [Pat.rep (fun c => c = '!') 3, Pat.rep (fun c => c = '?') 3,
          Pat.rep capsClass 30],
   false, Severity.low,
   "Excessive caps/punctuation reads as shouting — reduces perceived quality"⟩

/-- INFLAMMATORY_PATTERNS rule table (scandal-detector.ts). -/
def INFLAMMATORY_PATTERNS : List PatternRule :=
  [⟨pseq [Pat.wb,
      palts [pseq [plit "fight", ws1, plit "me"],
             pseq [plit "come", ws1, plit "at", ws1, plit "me"],
             pseq [plit "say", ws1, plit "it", ws1, plit "to", ws1, plit "my", ws1, plit "face"],
             pseq [plit "square", ws1, plit "up"]],
      Pat.wb],
    true, Severity.medium,
    "Confrontational tone drives blocks and mutes rather than constructive replies"⟩,
   ⟨pseq [Pat.wb, plit "you",
      palts [pseq [aP, plit "re"], pseq [ws1, plit "are"]], ws1,
      palts [plit "wrong", pseq [plit "a", Pat.opt (plit "n"), ws1, plit "idiot"],
             plit "stupid", plit "clueless", plit "delusional"],
      Pat.wb],
    true, Severity.high,
    "Personal attacks on individuals generate reports and blocks at high rates"⟩,
   ⟨pseq [Pat.wb, plit "everyone", ws1, plit "who", ws1,
      palts [plit "disagrees", plit "thinks"], ws1, plit "is", ws1,
      palts [plit "wrong", plit "stupid", pseq [plit "a", Pat.opt (plit "n"), ws1, plit "idiot"]],
      Pat.wb],
    true, Severity.high,
    "Dismissing all disagreement signals toxicity to the algorithm"⟩,
   capsRule]

/-- RAGE_BAIT_PATTERNS rule table (scandal-detector.ts). -/
def RAGE_BAIT_PATTERNS : List PatternRule :=
  [⟨pseq [Pat.wb,
      palts [plit "ratio", pseq [plit "ratio", ws0, plit "this"],
             pseq [plit "you", ws1, plit "got", ws1, plit "ratio",
                   palts [pseq [aP, plit "d"], plit "ed"]]],
      Pat.wb],
    true, Severity.low,
    "Ratio culture drives negative engagement — blocks outweigh any reply boost"⟩,
   ⟨pseq [Pat.wb,
      palts [pseq [plit "cope", ws1, plit "harder"], pseq [plit "stay", ws1, plit "mad"],
             pseq [plit "die", ws1, plit "mad"], plit "seethe",
             pseq [plit "cry", ws1, palts [pseq [plit "about", ws1, plit "it"],
                                           plit "more", plit "harder"]]],
      Pat.wb],
    true, Severity.medium,
    "Dismissive provocation generates blocks (-74x) far more than positive engagement"⟩,
   ⟨pseq [Pat.wb,
      palts [pseq [plit "this", ws1, plit "will", ws1, plit "trigger"],
             pseq [plit "watch", ws1, plit "them", ws1, palts [plit "lose", plit "melt"]],
             pseq [plit "gonna", ws1, plit "make", ws1, plit "people", ws1, plit "mad"]],
      Pat.wb],
    true, Severity.medium,
    "Intentional provocation is the fastest path to reports (-369x) and algorithmic debt"⟩]

/-- TARGETED_ATTACK_PATTERNS rule table (scandal-detector.ts). -/
def TARGETED_ATTACK_PATTERNS : List PatternRule :=
  [⟨pseq [plit "@", Pat.rep wordChar 1, ws1, plit "is", ws1,
      palts [plit "trash", plit "garbage", plit "worst", plit "terrible",
             pseq [plit "a", ws1, plit "fraud"], pseq [plit "a", ws1, plit "scam"],
             plit "lying"],
      Pat.wb],
    true, Severity.high,
    "Directly attacking named users triggers their followers to report en masse"⟩,
   ⟨pseq [Pat.wb,
      palts [plit "doxx", plit "dox", pseq [plit "expose", ws1, plit "them"],
             pseq [plit "leak", ws1, palts [plit "their", plit "the"], ws1,
                   palts [plit "address", plit "info", plit "number"]]],
      Pat.wb],
    true, Severity.critical,
    "Doxxing references trigger immediate reports and potential account suspension"⟩,
   ⟨pseq [Pat.wb,
      palts [pseq [plit "cancel", ws1, palts [plit "this", plit "them", plit "her", plit "him"]],
             pseq [plit "let", aP, plit "s", ws1, plit "cancel"],
             pseq [plit "need", Pat.opt (plit "s"), ws1, plit "to", ws1, plit "be", ws1,
                   plit "cancelled"]],
      Pat.wb],
    true, Severity.high,
    "Cancel mob calls generate mass reports from the target" ++ apoS ++ "s community"⟩]

/-- MISINFO_PATTERNS rule table (scandal-detector.ts). -/
def MISINFO_PATTERNS : List PatternRule :=
  [⟨pseq [Pat.wb,
      palts [plit "exposed", plit "exposed!",
             pseq [plit "they", ws1, plit "don", Pat.opt aP, plit "t", ws1, plit "want",
                   ws1, plit "you", ws1, plit "to", ws1, plit "know"],
             pseq [plit "the", ws1, plit "truth", ws1, palts [plit "they", plit "about"]]],
      Pat.wb],
    true, Severity.low,
    "Conspiracy-adjacent framing may trigger content moderation review"⟩,
   ⟨pseq [Pat.wb,
      palts [pseq [plit "do", ws1, plit "your", ws1, Pat.opt (pseq [plit "own", ws1]),
                   plit "research"],
             pseq [plit "look", ws1, plit "it", ws1, plit "up", ws1, plit "yourself"],
             pseq [plit "i", Pat.opt aP, plit "m", ws1, plit "just", ws1, plit "asking",
                   ws1, plit "questions"]],
      Pat.wb],
    true, Severity.low,
    "JAQ-ing (just asking questions) pattern is flagged by content classifiers"⟩,
   ⟨pseq [Pat.wb,
      palts [pseq [plit "100%", ws1, plit "proven"],
             pseq [plit "scientifically", ws1, plit "proven"],
             pseq [plit "doctor", Pat.opt (plit "s"), ws1,
                   palts [pseq [plit "don", Pat.opt aP, plit "t"],
                          pseq [plit "won", Pat.opt aP, plit "t"]],
                   ws1, plit "tell", ws1, plit "you"]],
      Pat.wb],
    true, Severity.medium,
    "False authority claims on health/science topics trigger community notes and reports"⟩]

/-- Test one rule against the raw text; the case-insensitive flag i is
modelled by ASCII-lowercasing the subject. -/
def testRule (r : PatternRule) (text : String) : Bool :=
  reTest r.pattern (if r.ci then text.data.map lowerChar else text.data)

/-- Build the warning a matched rule contributes. -/
def mkWarning (cat : ControversyCategory) (msg : String) (r : PatternRule) :
    ControversyWarning :=
  ⟨cat, r.severity, msg, r.detail, SEVERITY_PENALTY r.severity⟩

/-- The scanPatterns helper of scanForControversy: every matching rule of
one table contributes one warning, in table order. -/
def scanGroup (rules : List PatternRule) (cat : ControversyCategory) (msg : String)
    (text : String) : List ControversyWarning :=
  rules.filterMap (fun r => if testRule r text then some (mkWarning cat msg r) else none)

/-- All warnings in insertion order: the six scanPatterns calls of
scanForControversy, in source call order. -/
def collectWarnings (text : String) : List ControversyWarning :=
  scanGroup OFFENSIVE_PATTERNS ControversyCategory.offensive_language
    "Offensive language detected" text ++
  scanGroup HOT_BUTTON_PATTERNS ControversyCategory.hot_button_topic
    "Polarizing topic pattern detected" text ++
  scanGroup INFLAMMATORY_PATTERNS ControversyCategory.inflammatory_tone
    "Inflammatory tone detected" text ++
  scanGroup RAGE_BAIT_PATTERNS ControversyCategory.rage_bait
    "Rage bait pattern detected" text ++
  scanGroup TARGETED_ATTACK_PATTERNS ControversyCategory.targeted_attack
    "Targeted attack pattern detected" text ++
  scanGroup MISINFO_PATTERNS ControversyCategory.misinfo_pattern
    "Misinformation-adjacent pattern detected" text

/-- The flat rule table: category call order, then rule order within each
category. -/
def ruleTable : List (ControversyCategory × String × PatternRule) :=
  OFFENSIVE_PATTERNS.map (fun r => (ControversyCategory.offensive_language,
    "Offensive language detected", r)) ++
  HOT_BUTTON_PATTERNS.map (fun r => (ControversyCategory.hot_button_topic,
    "Polarizing topic pattern detected", r)) ++
  INFLAMMATORY_PATTERNS.map (fun r => (ControversyCategory.inflammatory_tone,
    "Inflammatory tone detected", r)) ++
  RAGE_BAIT_PATTERNS.map (fun r => (ControversyCategory.rage_bait,
    "Rage bait pattern detected", r)) ++
  TARGETED_ATTACK_PATTERNS.map (fun r => (ControversyCategory.targeted_attack,
    "Targeted attack pattern detected", r)) ++
  MISINFO_PATTERNS.map (fun r => (ControversyCategory.misinfo_pattern,
    "Misinformation-adjacent pattern detected", r))

/-- The warning list described by the flat rule table: one warning per
matched rule, in table order. -/
def tableScan (text : String) : List ControversyWarning :=
  ruleTable.filterMap (fun e =>
    if testRule e.2.2 text then some (mkWarning e.1 e.2.1 e.2.2) else none)

/-- Sort key of the source comparator: SEVERITY_PENALTY of the severity. -/
def wKey (w : ControversyWarning) : Nat := SEVERITY_PENALTY w.severity

/-- Insert before the first element of not-larger key: together with
sortDesc this is a stable sort by descending key, the behaviour of the
JavaScript Array sort with the source comparator. -/
def insertDesc (x : ControversyWarning) : List ControversyWarning → List ControversyWarning
  | [] => [x]
  | y :: ys => if wKey y ≤ wKey x then x :: y :: ys else y :: insertDesc x ys

/-- Stable sort by descending severity penalty. -/
def sortDesc : List ControversyWarning → List ControversyWarning
  | [] => []
  | x :: xs => insertDesc x (sortDesc xs)

/-- totalPenalty: sum of all warning penalties, no cap. -/
def totalPenaltyOf (text : String) : Nat :=
  ((collectWarnings text).map (fun w => w.penalty)).sum

/-- riskScore: min of 100 and totalPenalty times 2.5. -/
def riskScoreOf (text : String) : ℚ :=
  min 100 ((totalPenaltyOf text : ℚ) * 5 / 2)

/-- riskLevel thresholds on riskScore. -/
def riskLevelOf (text : String) : RiskLevel :=
  if 60 ≤ riskScoreOf text then RiskLevel.dangerous
  else if 30 ≤ riskScoreOf text then RiskLevel.risky
  else if 10 ≤ riskScoreOf text then RiskLevel.caution
  else RiskLevel.safe

/-- scanForControversy (scandal-detector.ts). -/
def scanForControversy (text : String) : ControversyResult :=
  ⟨riskLevelOf text, riskScoreOf text, sortDesc (collectWarnings text), totalPenaltyOf text⟩

/-- Length of the maximal run of class characters at the head. -/
def countRun (p : Char → Bool) : List Char → Nat
  | [] => 0
  | c :: s => if p c then countRun p s + 1 else 0

/-- Does the text contain a run of at least n consecutive class
characters. -/
def hasRunB (p : Char → Bool) (n : Nat) : List Char → Bool
  | [] => decide (n = 0)
  | c :: s => decide (n ≤ countRun p (c :: s)) || hasRunB p n s

/-- Integer minimum written as a conditional (JavaScript Math.min). -/
def zmin (a b : ℤ) : ℤ := if a ≤ b then a else b

/-- Integer maximum written as a conditional (JavaScript Math.max). -/
def zmax (a b : ℤ) : ℤ := if a ≤ b then b else a

/-- Modelled from the spec: the media type enumeration of DraftTweet
(src/lib/scoring-engine.ts and the shared types are absent from the
snapshot). -/
inductive MediaType where
  | image : MediaType
  | video : MediaType
  | gif : MediaType
  | poll : MediaType
  | none : MediaType
deriving DecidableEq

/-- Modelled from the spec: the UserContext record (the shared types file
is absent from the snapshot; fields follow section 3 of the spec and the
scoring-engine test). -/
structure UserContext where
  followerCount : ℤ
  followingCount : ℤ
  isVerified : Bool
  isPremium : Bool
  accountAgeMonths : ℤ
  avgEngagementRate : ℚ
  recentPostFrequency : ℚ
deriving DecidableEq

/-- Modelled from the spec: the DraftTweet record with the derived feature
fields merged in, as the scoring-engine test constructs it. -/
structure DraftTweet where
  text : String
  hasMedia : Bool
  mediaType : MediaType
  mediaCount : ℤ
  isThread : Bool
  threadLength : ℤ
  isReply : Bool
  quoteTweet : Bool
  externalLinks : ℤ
  hashtags : ℤ
  mentions : ℤ
  hasQuestion : Bool
  hasEmoji : Bool
  hasCallToAction : Bool
  length : ℤ
deriving DecidableEq

/-- Modelled from the spec: the caller-supplied or current timestamp the
Timing component evaluates, reduced to the fields the fixed peak windows
read: hour of day in the reference time zone and the weekday flag. -/
structure Moment where
  hour : ℕ
  isWeekday : Bool
deriving DecidableEq

/-- Modelled from the spec: defaults approximating a typical non-premium
account, used when the context is omitted. -/
def defaultContext : UserContext :=
  ⟨500, 300, false, false, 12, 1 / 50, 1⟩

/-- Replace only the isPremium flag of a context. -/
def setPremium (c : UserContext) (b : Bool) : UserContext :=
  ⟨c.followerCount, c.followingCount, c.isVerified, b, c.accountAgeMonths,
   c.avgEngagementRate, c.recentPostFrequency⟩

/-- Check whether the lowercased text contains the needle. -/
def prefAt : List Char → List Char → Bool
  | [], _ => true
  | _ :: _, [] => false
  | c :: cs, d :: ds => c = d && prefAt cs ds

/-- Substring containment on character lists. -/
def hasSub (needle : List Char) : List Char → Bool
  | [] => prefAt needle []
  | c :: s => prefAt needle (c :: s) || hasSub needle s

/-- Case-insensitive substring containment on strings. -/
def containsStr (hay pat : String) : Bool :=
  hasSub pat.data (hay.data.map lowerChar)

/-- Modelled from the spec: the fixed low-effort template phrase list of
the Content component. -/
def TEMPLATE_PHRASES : List String := ["unpopular opinion", "gm", "day of"]

/-- Modelled from the spec: template detection over the fixed phrase
list. -/
def hasTemplate (text : String) : Bool :=
  TEMPLATE_PHRASES.any (fun p => containsStr text p)

/-- Modelled from the spec: the lightweight negative-sentiment keyword
list of the Risk component. -/
def NEGATIVE_WORDS : List String := ["hate", "terrible", "awful", "worst", "sucks"]

/-- Modelled from the spec: keyword-based negative-sentiment detection. -/
def hasNegativeSentiment (text : String) : Bool :=
  NEGATIVE_WORDS.any (fun p => containsStr text p)

/-- Modelled from the spec: the Content sub-score, max 25; length against
the 120 to 240 character sweet spot, bonuses for threads and emoji,
penalty for low-effort templates. -/
def contentScore (t : DraftTweet) : ℤ :=
  let len := zmax 0 t.length
  let base : ℤ := if 120 ≤ len ∧ len ≤ 240 then 18 else if 40 ≤ len then 12 else 6
  let threadBonus : ℤ := if t.isThread then 4 else 0
  let emojiBonus : ℤ := if t.hasEmoji then 3 else 0
  let templatePen : ℤ := if hasTemplate t.text then 5 else 0
  zmax 0 (zmin 25 (base + threadBonus + emojiBonus - templatePen))

/-- Modelled from the spec: the Media sub-score, a fixed award by media
type (video 20, poll 18, image 17, gif 16, none 0); mediaCount does not
increase the award. -/
def mediaScore (t : DraftTweet) : ℤ :=
  if t.hasMedia then
    match t.mediaType with
    | MediaType.video => 20
    | MediaType.poll => 18
    | MediaType.image => 17
    | MediaType.gif => 16
    | MediaType.none => 0
  else 0

/-- Modelled from the spec: the Timing sub-score, max 15; morning and
evening peak windows plus a weekday bonus, minimum outside both. -/
def timingScore (m : Moment) : ℤ :=
  (if (9 ≤ m.hour ∧ m.hour < 12) ∨ (19 ≤ m.hour ∧ m.hour < 22) then 12 else 0) +
  (if m.isWeekday then 3 else 0)

/-- Modelled from the spec: the Engagement sub-score, additive bonuses
question 8, call to action 4, quote 3, reply 2, clamped to 20. -/
def engagementScore (t : DraftTweet) : ℤ :=
  zmin 20 ((if t.hasQuestion then 8 else 0) + (if t.hasCallToAction then 4 else 0) +
    (if t.quoteTweet then 3 else 0) + (if t.isReply then 2 else 0))

/-- Modelled from the spec: the external-link penalty, scaled by the link
count and penalizing non-premium contexts more heavily per link. -/
def linkRiskPenalty (t : DraftTweet) (c : UserContext) : ℤ :=
  zmax 0 t.externalLinks * (if c.isPremium then 15 else 20)

/-- Modelled from the spec: the context-independent part of the risk
penalty: excess hashtags (3 points each beyond an allowance of 2), excess
mentions (2 points each beyond an allowance of 2), template detection
(5), negative sentiment (3), plus the Controversy Scanner contribution
capped at one third of the 30-point risk budget. -/
def baseRiskPenalty (t : DraftTweet) : ℤ :=
  3 * zmax 0 (zmax 0 t.hashtags - 2) +
  2 * zmax 0 (zmax 0 t.mentions - 2) +
  (if hasTemplate t.text then 5 else 0) +
  (if hasNegativeSentiment t.text then 3 else 0) +
  zmin 10 ((scanForControversy t.text).totalPenalty : ℤ)

/-- Modelled from the spec: the uncapped risk total. -/
def riskRaw (t : DraftTweet) (c : UserContext) : ℤ :=
  linkRiskPenalty t c + baseRiskPenalty t

/-- Modelled from the spec: the Risk component, the uncapped total clamped
to the 30-point risk budget. -/
def riskComponent (t : DraftTweet) (c : UserContext) : ℤ :=
  zmin 30 (riskRaw t c)

/-- Letter grades. -/
inductive Grade where
  | S : Grade
  | A : Grade
  | B : Grade
  | C : Grade
  | D : Grade
  | F : Grade
deriving DecidableEq

/-- Modelled from the spec: the grade step function on the overall score:
S at 90 and above, A at 80, B at 65, C at 50, D at 35, F below. -/
def gradeOf (o : ℤ) : Grade :=
  if 90 ≤ o then Grade.S
  else if 80 ≤ o then Grade.A
  else if 65 ≤ o then Grade.B
  else if 50 ≤ o then Grade.C
  else if 35 ≤ o then Grade.D
  else Grade.F

/-- The five named sub-scores of the breakdown. -/
structure Breakdown where
  content : ℤ
  media : ℤ
  timing : ℤ
  engagement : ℤ
  risk : ℤ
deriving DecidableEq

/-- Suggestion polarity. -/
inductive SuggestionType where
  | positive : SuggestionType
  | negative : SuggestionType
  | neutral : SuggestionType
deriving DecidableEq

/-- Suggestion impact tier. -/
inductive Impact where
  | high : Impact
  | medium : Impact
  | low : Impact
deriving DecidableEq

/-- Modelled from the spec: one suggestion entry. -/
structure Suggestion where
  stype : SuggestionType
  category : String
  message : String
  action : Option String
  impact : Impact
deriving DecidableEq

/-- Modelled from the spec: the predicted reach range with confidence. -/
structure Reach where
  low : ℤ
  median : ℤ
  high : ℤ
  confidence : ℚ
deriving DecidableEq

/-- Factor status derived from comparing the current value with the
optimal range. -/
inductive FactorStatus where
  | optimal : FactorStatus
  | suboptimal : FactorStatus
  | harmful : FactorStatus
deriving DecidableEq

/-- Modelled from the spec: one algorithm factor entry. -/
structure AlgorithmFactor where
  name : String
  description : String
  weight : ℚ
  currentValue : ℚ
  optimalRange : ℚ × ℚ
  status : FactorStatus
deriving DecidableEq

/-- Modelled from the spec: status from comparing a value to a range:
inside is optimal, below is suboptimal, above is harmful. -/
def statusFor (v lo hi : ℚ) : FactorStatus :=
  if lo ≤ v ∧ v ≤ hi then FactorStatus.optimal
  else if v < lo then FactorStatus.suboptimal
  else FactorStatus.harmful

/-- Modelled from the spec: the final TweetScore record. -/
structure TweetScore where
  overall : ℤ
  grade : Grade
  breakdown : Breakdown
  suggestions : List Suggestion
  predictedReach : Reach
  algorithmFactors : List AlgorithmFactor
deriving DecidableEq

/-- Modelled from the spec: per-component suggestions for components with
room for improvement, with the single highest-severity controversy
warning surfaced as a dedicated high-impact negative suggestion. -/
def suggestionsFor (t : DraftTweet) (c : UserContext) (m : Moment) : List Suggestion :=
  (if contentScore t < 25 then
    [⟨SuggestionType.neutral, "content",
      "Move the length toward the 120 to 240 character sweet spot", Option.none,
      Impact.medium⟩] else []) ++
  (if mediaScore t < 20 then
    [⟨SuggestionType.neutral, "media", "Attach native media, video performs best",
      Option.none, Impact.medium⟩] else []) ++
  (if timingScore m < 15 then
    [⟨SuggestionType.neutral, "timing", "Post during weekday peak windows",
      Option.none, Impact.low⟩] else []) ++
  (if engagementScore t < 20 then
    [⟨SuggestionType.neutral, "engagement", "Add a question or a call to action",
      Option.none, Impact.medium⟩] else []) ++
  (if 0 < riskComponent t c then
    [⟨SuggestionType.negative, "risk", "Reduce links, hashtags and risky phrasing",
      Option.none, Impact.high⟩] else []) ++
  (match (scanForControversy t.text).warnings with
   | [] => []
   | w :: _ => [⟨SuggestionType.negative, "controversy", w.message, some w.detail,
       Impact.high⟩])

/-- Modelled from the spec: the predicted reach, monotone in the overall
score and the follower count, with confidence lower when the context was
omitted. -/
def reachFor (overall : ℤ) (followers : ℤ) (ctxProvided : Bool) : Reach :=
  let f := zmax 0 followers
  let median := f * overall / 100
  ⟨median / 4, median, median * 3, if ctxProvided then 7 / 10 else 1 / 2⟩

/-- Modelled from the spec: the fixed named factor list with derived
statuses. -/
def algorithmFactorsFor (t : DraftTweet) : List AlgorithmFactor :=
  [⟨"Reply Potential", "Questions invite replies, the highest-value engagement signal",
    3, if t.hasQuestion then 1 else 0, (1, 1),
    statusFor (if t.hasQuestion then 1 else 0) 1 1⟩,
   ⟨"Native Media Boost", "Attached native media increases distribution",
    2, if t.hasMedia then 1 else 0, (1, 1),
    statusFor (if t.hasMedia then 1 else 0) 1 1⟩,
   ⟨"External Link Penalty", "External links suppress reach for non-premium accounts",
    2, (zmax 0 t.externalLinks : ℚ), (0, 0),
    statusFor (zmax 0 t.externalLinks : ℚ) 0 0⟩]

/-- Modelled from the spec: the five components are summed, the risk
penalty subtracted, the result normalized from the 80-point component
budget to 0 to 100, rounded, and clamped. -/
def scoreTweetWith (t : DraftTweet) (c : UserContext) (m : Moment)
    (ctxProvided : Bool) : TweetScore :=
  let cs := contentScore t
  let ms := mediaScore t
  let ts := timingScore m
  let es := engagementScore t
  let rk := riskComponent t c
  let raw := cs + ms + ts + es - rk
  let overall := zmax 0 (zmin 100 (Int.floor ((raw : ℚ) * 100 / 80 + 1 / 2)))
  ⟨overall, gradeOf overall, ⟨cs, ms, ts, es, rk⟩, suggestionsFor t c m,
   reachFor overall c.followerCount ctxProvided, algorithmFactorsFor t⟩

/-- Modelled from the spec: scoreTweet defaults the context when it is
omitted. -/
def scoreTweet (t : DraftTweet) (c : Option UserContext) (m : Moment) : TweetScore :=
  match c with
  | Option.none => scoreTweetWith t defaultContext m false
  | Option.some ctx => scoreTweetWith t ctx m true

/-- Severity rank: the ordinal order of the four severities. -/
def sevRank : Severity → Nat
  | Severity.low => 0
  | Severity.medium => 1
  | Severity.high => 2
  | Severity.critical => 3

theorem sevRank_le_of_penalty_le {a b : Severity}
    (h : SEVERITY_PENALTY a ≤ SEVERITY_PENALTY b) : sevRank a ≤ sevRank b := by
  cases a <;> cases b <;> first | rfl | exact absurd h (by decide) | decide

theorem mem_insertDesc {z x : ControversyWarning} {l : List ControversyWarning} :
    z ∈ insertDesc x l ↔ z = x ∨ z ∈ l := by
  induction l with
  | nil => simp [insertDesc]
  | cons y ys ih =>
    simp only [insertDesc]
    split
    · simp [List.mem_cons]
    · simp only [List.mem_cons, ih]
      tauto

theorem insertDesc_perm (x : ControversyWarning) (l : List ControversyWarning) :
    List.Perm (insertDesc x l) (x :: l) := by
  induction l with
  | nil => exact List.Perm.refl _
  | cons y ys ih =>
    simp only [insertDesc]
    split
    · exact List.Perm.refl _
    · exact (ih.cons y).trans (List.Perm.swap x y ys)

theorem sortDesc_perm (l : List ControversyWarning) : List.Perm (sortDesc l) l := by
  induction l with
  | nil => exact List.Perm.refl _
  | cons x xs ih => exact (insertDesc_perm x (sortDesc xs)).trans (ih.cons x)

theorem pairwise_insertDesc {x : ControversyWarning} {l : List ControversyWarning}
    (h : List.Pairwise (fun a b => wKey b ≤ wKey a) l) :
    List.Pairwise (fun a b => wKey b ≤ wKey a) (insertDesc x l) := by
  induction l with
  | nil => simp [insertDesc]
  | cons y ys ih =>
    rcases List.pairwise_cons.mp h with ⟨hy, hys⟩
    simp only [insertDesc]
    split
    case isTrue hle =>
      refine List.pairwise_cons.mpr ⟨?_, h⟩
      intro z hz
      rcases List.mem_cons.mp hz with rfl | hz
      · exact hle
      · exact le_trans (hy z hz) hle
    case isFalse hgt =>
      refine List.pairwise_cons.mpr ⟨?_, ih hys⟩
      intro z hz
      rcases mem_insertDesc.mp hz with rfl | hz
      · exact le_of_lt (lt_of_not_le hgt)
      · exact hy z hz

theorem sortDesc_sorted (l : List ControversyWarning) :
    List.Pairwise (fun a b => wKey b ≤ wKey a) (sortDesc l) := by
  induction l with
  | nil => simp [sortDesc]
  | cons x xs ih => exact pairwise_insertDesc ih

theorem filter_insertDesc_pos {p : ControversyWarning → Bool} {x : ControversyWarning}
    {l : List ControversyWarning} (hpx : p x = true)
    (hk : ∀ w, p w = true → wKey w = wKey x) :
    List.filter p (insertDesc x l) = x :: List.filter p l := by
  induction l with
  | nil => simp [insertDesc, hpx]
  | cons y ys ih =>
    simp only [insertDesc]
    split
    case isTrue hle => simp [List.filter_cons, hpx]
    case isFalse hgt =>
      have hpy : p y = false := by
        cases hy : p y
        · rfl
        · exact absurd (le_of_eq (hk y hy)) hgt
      simp [List.filter_cons, hpy, ih]

theorem filter_insertDesc_neg {p : ControversyWarning → Bool} {x : ControversyWarning}
    {l : List ControversyWarning} (hpx : p x = false) :
    List.filter p (insertDesc x l) = List.filter p l := by
  induction l with
  | nil => simp [insertDesc, hpx]
  | cons y ys ih =>
    simp only [insertDesc]
    split
    · simp [List.filter_cons, hpx]
    · cases hy : p y <;> simp [List.filter_cons, hy, ih]

theorem filter_sortDesc {p : ControversyWarning → Bool}
    (hk : ∀ a b, p a = true → p b = true → wKey a = wKey b)
    (l : List ControversyWarning) :
    List.filter p (sortDesc l) = List.filter p l := by
  induction l with
  | nil => rfl
  | cons x xs ih =>
    show List.filter p (insertDesc x (sortDesc xs)) = List.filter p (x :: xs)
    cases hpx : p x
    · rw [filter_insertDesc_neg hpx, ih]
      simp [List.filter_cons, hpx]
    · rw [filter_insertDesc_pos hpx (fun w hw => hk w x hw hpx), ih]
      simp [List.filter_cons, hpx]

theorem collectWarnings_eq_tableScan (text : String) :
    collectWarnings text = tableScan text := by
  simp only [tableScan, ruleTable, List.filterMap_append, List.filterMap_map]
  rfl

theorem category_of_mem_scanGroup {w : ControversyWarning} {rules : List PatternRule}
    {cat : ControversyCategory} {msg text : String}
    (h : w ∈ scanGroup rules cat msg text) : w.category = cat := by
  rcases List.mem_filterMap.mp h with ⟨r, _, hr⟩
  split at hr
  · cases hr; rfl
  · cases hr

theorem penalty_of_mem_scanGroup {w : ControversyWarning} {rules : List PatternRule}
    {cat : ControversyCategory} {msg text : String}
    (h : w ∈ scanGroup rules cat msg text) :
    w.penalty = SEVERITY_PENALTY w.severity := by
  rcases List.mem_filterMap.mp h with ⟨r, _, hr⟩
  split at hr
  · cases hr; rfl
  · cases hr

theorem mem_scanGroup_of_rule {r : PatternRule} {rules : List PatternRule}
    {cat : ControversyCategory} {msg text : String}
    (hr : r ∈ rules) (ht : testRule r text = true) :
    mkWarning cat msg r ∈ scanGroup rules cat msg text :=
  List.mem_filterMap.mpr ⟨r, hr, by simp [ht]⟩

theorem penalty_of_mem_collect {w : ControversyWarning} {text : String}
    (h : w ∈ collectWarnings text) : w.penalty = SEVERITY_PENALTY w.severity := by
  simp only [collectWarnings, List.mem_append] at h
  rcases h with ((((h | h) | h) | h) | h) | h <;> exact penalty_of_mem_scanGroup h

theorem category_of_mem_collect {w : ControversyWarning} {text : String}
    (h : w ∈ collectWarnings text) :
    w.category = ControversyCategory.offensive_language ∨
    w.category = ControversyCategory.hot_button_topic ∨
    w.category = ControversyCategory.inflammatory_tone ∨
    w.category = ControversyCategory.rage_bait ∨
    w.category = ControversyCategory.targeted_attack ∨
    w.category = ControversyCategory.misinfo_pattern := by
  simp only [collectWarnings, List.mem_append] at h
  rcases h with ((((h | h) | h) | h) | h) | h
  · exact Or.inl (category_of_mem_scanGroup h)
  · exact Or.inr (Or.inl (category_of_mem_scanGroup h))
  · exact Or.inr (Or.inr (Or.inl (category_of_mem_scanGroup h)))
  · exact Or.inr (Or.inr (Or.inr (Or.inl (category_of_mem_scanGroup h))))
  · exact Or.inr (Or.inr (Or.inr (Or.inr (Or.inl (category_of_mem_scanGroup h)))))
  · exact Or.inr (Or.inr (Or.inr (Or.inr (Or.inr (category_of_mem_scanGroup h)))))

theorem mem_warnings_of_mem_collect {w : ControversyWarning} {text : String}
    (h : w ∈ collectWarnings text) : w ∈ (scanForControversy text).warnings :=
  (sortDesc_perm (collectWarnings text)).mem_iff.mpr h

theorem repAll_countRun (p : Char → Bool) (s : List Char) :
    ∀ prev, ∃ pr r, (countRun p s, pr, r) ∈ repAll p prev s := by
  induction s with
  | nil => intro prev; exact ⟨prev, [], by simp [repAll, countRun]⟩
  | cons c cs ih =>
    intro prev
    by_cases hc : p c = true
    · obtain ⟨pr, r, hm⟩ := ih (some c)
      refine ⟨pr, r, ?_⟩
      have hmap : (countRun p cs + 1, pr, r) ∈
          (repAll p (some c) cs).map (fun t => (t.1 + 1, t.2)) :=
        List.mem_map_of_mem _ hm
      simp only [repAll, countRun, hc, if_true]
      exact List.mem_cons_of_mem _ hmap
    · refine ⟨prev, c :: cs, ?_⟩
      simp only [repAll, countRun, hc]
      simp [hc]

theorem matchP_rep_ne_nil {p : Char → Bool} {n : Nat} {prev : Option Char}
    {s : List Char} (h : n ≤ countRun p s) : matchP (Pat.rep p n) prev s ≠ [] := by
  obtain ⟨pr, r, hm⟩ := repAll_countRun p s prev
  have hmem : (pr, r) ∈ matchP (Pat.rep p n) prev s := by
    simp only [matchP]
    exact List.mem_map_of_mem _ (List.mem_filter.mpr ⟨hm, by simpa using h⟩)
  exact List.ne_nil_of_mem hmem

theorem matchP_caps_ne_nil {prev : Option Char} {s : List Char}
    (h : 30 ≤ countRun capsClass s) : matchP capsRule.pattern prev s ≠ [] := by
  have hsplit : matchP capsRule.pattern prev s =
      matchP (Pat.rep (fun c => c = '!') 3) prev s ++
      (matchP (Pat.rep (fun c => c = '?') 3) prev s ++
       matchP (Pat.rep capsClass 30) prev s) := rfl
  rw [hsplit]
  intro hnil
  rcases List.append_eq_nil.mp hnil with ⟨-, h2⟩
  rcases List.append_eq_nil.mp h2 with ⟨-, h3⟩
  exact matchP_rep_ne_nil h h3

theorem searchAt_caps_of_hasRun (s : List Char) :
    ∀ prev, hasRunB capsClass 30 s = true → searchAt capsRule.pattern prev s = true := by
  induction s with
  | nil => intro prev h; simp [hasRunB] at h
  | cons c cs ih =>
    intro prev h
    simp only [hasRunB, Bool.or_eq_true, decide_eq_true_eq] at h
    simp only [searchAt, Bool.or_eq_true]
    rcases h with h | h
    · left
      have : matchP capsRule.pattern prev (c :: cs) ≠ [] := matchP_caps_ne_nil h
      simpa [List.isEmpty_iff] using this
    · right
      exact ih (some c) h

theorem testRule_caps_of_hasRun {text : String}
    (h : hasRunB capsClass 30 text.data = true) : testRule capsRule text = true :=
  searchAt_caps_of_hasRun text.data none h

/-- C2: for every input text, riskScore equals min(100, totalPenalty times
2.5), so riskScore is always within 0 and 100 and is monotonically
non-decreasing as a function of totalPenalty. -/
theorem riskScore_formula_bounds_mono (t1 t2 : String) :
    (scanForControversy t1).riskScore =
      min 100 (((scanForControversy t1).totalPenalty : ℚ) * 5 / 2) ∧
    0 ≤ (scanForControversy t1).riskScore ∧ (scanForControversy t1).riskScore ≤ 100 ∧
    ((scanForControversy t1).totalPenalty ≤ (scanForControversy t2).totalPenalty →
      (scanForControversy t1).riskScore ≤ (scanForControversy t2).riskScore) := by
  refine ⟨rfl, ?_, ?_, ?_⟩
  · show (0 : ℚ) ≤ min 100 ((totalPenaltyOf t1 : ℚ) * 5 / 2)
    exact le_min (by norm_num) (by positivity)
  · show min (100 : ℚ) ((totalPenaltyOf t1 : ℚ) * 5 / 2) ≤ 100
    exact min_le_left _ _
  · intro h
    show min (100 : ℚ) ((totalPenaltyOf t1 : ℚ) * 5 / 2) ≤
      min 100 ((totalPenaltyOf t2 : ℚ) * 5 / 2)
    have hc : ((totalPenaltyOf t1 : ℚ)) ≤ (totalPenaltyOf t2 : ℚ) := by exact_mod_cast h
    exact min_le_min le_rfl (by linarith)

theorem riskScore_formula_bounds_mono_witness :
    (scanForControversy "").totalPenalty ≤ (scanForControversy "stfu").totalPenalty ∧
    (scanForControversy "").riskScore ≤ (scanForControversy "stfu").riskScore :=
  ⟨by decide, (riskScore_formula_bounds_mono "" "stfu").2.2.2 (by decide)⟩

/-- C3: riskLevel is dangerous exactly when riskScore is at least 60,
risky on [30,60), caution on [10,30) and safe below 10; every lower bound
is inclusive. -/
theorem riskLevel_bands (text : String) :
    ((scanForControversy text).riskLevel = RiskLevel.dangerous ↔
      60 ≤ (scanForControversy text).riskScore) ∧
    ((scanForControversy text).riskLevel = RiskLevel.risky ↔
      30 ≤ (scanForControversy text).riskScore ∧ (scanForControversy text).riskScore < 60) ∧
    ((scanForControversy text).riskLevel = RiskLevel.caution ↔
      10 ≤ (scanForControversy text).riskScore ∧ (scanForControversy text).riskScore < 30) ∧
    ((scanForControversy text).riskLevel = RiskLevel.safe ↔
      (scanForControversy text).riskScore < 10) := by
  show (riskLevelOf text = RiskLevel.dangerous ↔ 60 ≤ riskScoreOf text) ∧
    (riskLevelOf text = RiskLevel.risky ↔
      30 ≤ riskScoreOf text ∧ riskScoreOf text < 60) ∧
    (riskLevelOf text = RiskLevel.caution ↔
      10 ≤ riskScoreOf text ∧ riskScoreOf text < 30) ∧
    (riskLevelOf text = RiskLevel.safe ↔ riskScoreOf text < 10)
  unfold riskLevelOf
  split_ifs with h1 h2 h3
  · exact ⟨iff_of_true rfl h1,
      iff_of_false (by decide) (by rintro ⟨-, hb⟩; linarith),
      iff_of_false (by decide) (by rintro ⟨-, hb⟩; linarith),
      iff_of_false (by decide) (by intro hb; linarith)⟩
  · exact ⟨iff_of_false (by decide) h1,
      iff_of_true rfl ⟨h2, not_le.mp h1⟩,
      iff_of_false (by decide) (by rintro ⟨-, hb⟩; linarith),
      iff_of_false (by decide) (by intro hb; linarith)⟩
  · exact ⟨iff_of_false (by decide) h1,
      iff_of_false (by decide) (by rintro ⟨ha, -⟩; exact h2 ha),
      iff_of_true rfl ⟨h3, not_le.mp h2⟩,
      iff_of_false (by decide) (by intro hb; linarith)⟩
  · exact ⟨iff_of_false (by decide) h1,
      iff_of_false (by decide) (by rintro ⟨ha, -⟩; exact h2 ha),
      iff_of_false (by decide) (by rintro ⟨ha, -⟩; exact h3 ha),
      iff_of_true rfl (not_le.mp h3)⟩

/-- C4: scanForControversy emits exactly one warning per matched rule of
the flat rule table, each warning penalty equals the SEVERITY_PENALTY
lookup of its severity, and totalPenalty is the uncapped sum of the
emitted warning penalties. -/
theorem warnings_one_per_rule (text : String) :
    List.Perm (scanForControversy text).warnings (tableScan text) ∧
    (scanForControversy text).totalPenalty =
      (((scanForControversy text).warnings).map (fun w => w.penalty)).sum ∧
    ∀ w ∈ (scanForControversy text).warnings,
      w.penalty = SEVERITY_PENALTY w.severity := by
  have hperm : List.Perm (sortDesc (collectWarnings text)) (collectWarnings text) :=
    sortDesc_perm _
  refine ⟨?_, ?_, ?_⟩
  · exact (collectWarnings_eq_tableScan text) ▸ hperm
  · show totalPenaltyOf text =
      ((sortDesc (collectWarnings text)).map (fun w => w.penalty)).sum
    unfold totalPenaltyOf
    exact ((hperm.map (fun w => w.penalty)).sum_eq).symm
  · intro w hw
    exact penalty_of_mem_collect (hperm.mem_iff.mp hw)

/-- A concrete warning used by witnesses: the one the first offensive
rule emits. -/
def stfuWarning : ControversyWarning :=
  ⟨ControversyCategory.offensive_language, Severity.medium,
   "Offensive language detected",
   "Direct insults often trigger blocks/mutes (-74x penalty each)", 5⟩

theorem warnings_one_per_rule_witness :
    stfuWarning ∈ (scanForControversy "stfu").warnings ∧
    stfuWarning.penalty = SEVERITY_PENALTY stfuWarning.severity :=
  ⟨by decide, (warnings_one_per_rule "stfu").2.2 stfuWarning (by decide)⟩

/-- C7: the returned warnings are sorted by descending severity, and for
each fixed severity the subsequence of warnings of that severity is
exactly the insertion-order list from the flat rule table (category call
order, then rule order within each category). -/
theorem warnings_sorted_desc_stable (text : String) :
    List.Pairwise (fun a b => sevRank b.severity ≤ sevRank a.severity)
      (scanForControversy text).warnings ∧
    ∀ s : Severity,
      ((scanForControversy text).warnings).filter (fun w => w.severity == s) =
      (tableScan text).filter (fun w => w.severity == s) := by
  constructor
  · exact (sortDesc_sorted (collectWarnings text)).imp
      (fun h => sevRank_le_of_penalty_le h)
  · intro s
    show (sortDesc (collectWarnings text)).filter (fun w => w.severity == s) = _
    have hk : ∀ a b : ControversyWarning, (a.severity == s) = true →
        (b.severity == s) = true → wKey a = wKey b := by
      intro a b ha hb
      have ha' : a.severity = s := by simpa using ha
      have hb' : b.severity = s := by simpa using hb
      unfold wKey
      rw [ha', hb']
    rw [filter_sortDesc hk, collectWarnings_eq_tableScan]

/-- C8: any text matched by the violent-language rule yields at least one
critical warning with penalty 20, and whenever riskScore reaches 60 the
risk level is dangerous. -/
theorem death_threat_critical (text : String)
    (h : testRule violentRule text = true) :
    (∃ w ∈ (scanForControversy text).warnings,
      w.severity = Severity.critical ∧ w.penalty = 20) ∧
    (60 ≤ (scanForControversy text).riskScore →
      (scanForControversy text).riskLevel = RiskLevel.dangerous) := by
  constructor
  · refine ⟨mkWarning ControversyCategory.offensive_language
      "Offensive language detected" violentRule, ?_, rfl, rfl⟩
    apply mem_warnings_of_mem_collect
    have h1 : mkWarning ControversyCategory.offensive_language
        "Offensive language detected" violentRule ∈
        scanGroup OFFENSIVE_PATTERNS ControversyCategory.offensive_language
          "Offensive language detected" text :=
      mem_scanGroup_of_rule (by simp [OFFENSIVE_PATTERNS]) h
    simp only [collectWarnings, List.mem_append]
    tauto
  · intro h60
    have h60' : (60 : ℚ) ≤ riskScoreOf text := h60
    show riskLevelOf text = RiskLevel.dangerous
    unfold riskLevelOf
    rw [if_pos h60']

theorem death_threat_critical_witness :
    testRule violentRule "kill yourself" = true ∧
    ((∃ w ∈ (scanForControversy "kill yourself").warnings,
        w.severity = Severity.critical ∧ w.penalty = 20) ∧
     (60 ≤ (scanForControversy "kill yourself").riskScore →
        (scanForControversy "kill yourself").riskLevel = RiskLevel.dangerous)) :=
  ⟨by decide, death_threat_critical "kill yourself" (by decide)⟩

/-- C9: every returned warning has one of the six categories the scanner
passes; in particular identity_attack is never returned. -/
theorem warnings_category_closed (text : String) (w : ControversyWarning)
    (h : w ∈ (scanForControversy text).warnings) :
    w.category = ControversyCategory.offensive_language ∨
    w.category = ControversyCategory.hot_button_topic ∨
    w.category = ControversyCategory.inflammatory_tone ∨
    w.category = ControversyCategory.rage_bait ∨
    w.category = ControversyCategory.targeted_attack ∨
    w.category = ControversyCategory.misinfo_pattern :=
  category_of_mem_collect ((sortDesc_perm (collectWarnings text)).mem_iff.mp h)

theorem warnings_category_closed_witness :
    stfuWarning ∈ (scanForControversy "stfu").warnings ∧
    (stfuWarning.category = ControversyCategory.offensive_language ∨
     stfuWarning.category = ControversyCategory.hot_button_topic ∨
     stfuWarning.category = ControversyCategory.inflammatory_tone ∨
     stfuWarning.category = ControversyCategory.rage_bait ∨
     stfuWarning.category = ControversyCategory.targeted_attack ∨
     stfuWarning.category = ControversyCategory.misinfo_pattern) :=
  ⟨by decide, warnings_category_closed "stfu" stfuWarning (by decide)⟩

/-- C10: any text containing a run of at least 30 consecutive characters
drawn from uppercase letters and whitespace (for example 30 spaces, hence
no letters or words at all) triggers the excessive-caps rule: the
warnings list is nonempty and contains an inflammatory_tone warning of
severity low with penalty 2. -/
theorem caps_rule_fires (text : String)
    (h : hasRunB capsClass 30 text.data = true) :
    (scanForControversy text).warnings ≠ [] ∧
    ∃ w ∈ (scanForControversy text).warnings,
      w.category = ControversyCategory.inflammatory_tone ∧
      w.severity = Severity.low ∧ w.penalty = 2 := by
  have ht : testRule capsRule text = true := testRule_caps_of_hasRun h
  have hmem : mkWarning ControversyCategory.inflammatory_tone
      "Inflammatory tone detected" capsRule ∈ (scanForControversy text).warnings := by
    apply mem_warnings_of_mem_collect
    have h1 : mkWarning ControversyCategory.inflammatory_tone
        "Inflammatory tone detected" capsRule ∈
        scanGroup INFLAMMATORY_PATTERNS ControversyCategory.inflammatory_tone
          "Inflammatory tone detected" text :=
      mem_scanGroup_of_rule (by simp [INFLAMMATORY_PATTERNS]) ht
    simp only [collectWarnings, List.mem_append]
    tauto
  exact ⟨List.ne_nil_of_mem hmem, ⟨_, hmem, rfl, rfl, rfl⟩⟩

/-- A string of thirty space characters. -/
def thirtySpaces : String := String.mk (List.replicate 30 ' ')

theorem caps_rule_fires_witness :
    hasRunB capsClass 30 thirtySpaces.data = true ∧
    ((scanForControversy thirtySpaces).warnings ≠ [] ∧
     ∃ w ∈ (scanForControversy thirtySpaces).warnings,
       w.category = ControversyCategory.inflammatory_tone ∧
       w.severity = Severity.low ∧ w.penalty = 2) :=
  ⟨by decide, caps_rule_fires thirtySpaces (by decide)⟩

theorem scoreTweetWith_overall_bounds (t : DraftTweet) (c : UserContext) (m : Moment)
    (b : Bool) : 0 ≤ (scoreTweetWith t c m b).overall ∧
    (scoreTweetWith t c m b).overall ≤ 100 := by
  show 0 ≤ zmax 0 (zmin 100 (Int.floor (((contentScore t + mediaScore t + timingScore m +
      engagementScore t - riskComponent t c : ℤ) : ℚ) * 100 / 80 + 1 / 2))) ∧
    zmax 0 (zmin 100 (Int.floor (((contentScore t + mediaScore t + timingScore m +
      engagementScore t - riskComponent t c : ℤ) : ℚ) * 100 / 80 + 1 / 2))) ≤ 100
  unfold zmax zmin
  split_ifs <;> omega

theorem grade_bands (o : ℤ) :
    (gradeOf o = Grade.S ↔ 90 ≤ o) ∧ (gradeOf o = Grade.A ↔ 80 ≤ o ∧ o < 90) ∧
    (gradeOf o = Grade.B ↔ 65 ≤ o ∧ o < 80) ∧ (gradeOf o = Grade.C ↔ 50 ≤ o ∧ o < 65) ∧
    (gradeOf o = Grade.D ↔ 35 ≤ o ∧ o < 50) ∧ (gradeOf o = Grade.F ↔ o < 35) := by
  unfold gradeOf
  split_ifs with h1 h2 h3 h4 h5 <;>
    refine ⟨?_, ?_, ?_, ?_, ?_, ?_⟩ <;>
    first
      | exact iff_of_true rfl (by omega)
      | exact iff_of_false (by decide) (by omega)

theorem scoreTweetWith_grade_spec (t : DraftTweet) (c : UserContext) (m : Moment)
    (b : Bool) :
    0 ≤ (scoreTweetWith t c m b).overall ∧ (scoreTweetWith t c m b).overall ≤ 100 ∧
    ((scoreTweetWith t c m b).grade = Grade.S ↔
      90 ≤ (scoreTweetWith t c m b).overall ∧ (scoreTweetWith t c m b).overall ≤ 100) ∧
    ((scoreTweetWith t c m b).grade = Grade.A ↔
      80 ≤ (scoreTweetWith t c m b).overall ∧ (scoreTweetWith t c m b).overall < 90) ∧
    ((scoreTweetWith t c m b).grade = Grade.B ↔
      65 ≤ (scoreTweetWith t c m b).overall ∧ (scoreTweetWith t c m b).overall < 80) ∧
    ((scoreTweetWith t c m b).grade = Grade.C ↔
      50 ≤ (scoreTweetWith t c m b).overall ∧ (scoreTweetWith t c m b).overall < 65) ∧
    ((scoreTweetWith t c m b).grade = Grade.D ↔
      35 ≤ (scoreTweetWith t c m b).overall ∧ (scoreTweetWith t c m b).overall < 50) ∧
    ((scoreTweetWith t c m b).grade = Grade.F ↔
      0 ≤ (scoreTweetWith t c m b).overall ∧ (scoreTweetWith t c m b).overall < 35) := by
  obtain ⟨h0, h1⟩ := scoreTweetWith_overall_bounds t c m b
  have hg : (scoreTweetWith t c m b).grade =
      gradeOf (scoreTweetWith t c m b).overall := rfl
  obtain ⟨bS, bA, bB, bC, bD, bF⟩ := grade_bands (scoreTweetWith t c m b).overall
  rw [hg, bS, bA, bB, bC, bD, bF]
  omega

/-- C1: for every draft tweet and every optional user context (the
defaulted context included), the overall score is an integer within 0 and
100 and the grade is the step function with bands S on [90,100], A on
[80,90), B on [65,80), C on [50,65), D on [35,50) and F on [0,35). -/
theorem scoreTweet_overall_range_grade (t : DraftTweet) (c : Option UserContext)
    (m : Moment) :
    0 ≤ (scoreTweet t c m).overall ∧ (scoreTweet t c m).overall ≤ 100 ∧
    ((scoreTweet t c m).grade = Grade.S ↔
      90 ≤ (scoreTweet t c m).overall ∧ (scoreTweet t c m).overall ≤ 100) ∧
    ((scoreTweet t c m).grade = Grade.A ↔
      80 ≤ (scoreTweet t c m).overall ∧ (scoreTweet t c m).overall < 90) ∧
    ((scoreTweet t c m).grade = Grade.B ↔
      65 ≤ (scoreTweet t c m).overall ∧ (scoreTweet t c m).overall < 80) ∧
    ((scoreTweet t c m).grade = Grade.C ↔
      50 ≤ (scoreTweet t c m).overall ∧ (scoreTweet t c m).overall < 65) ∧
    ((scoreTweet t c m).grade = Grade.D ↔
      35 ≤ (scoreTweet t c m).overall ∧ (scoreTweet t c m).overall < 50) ∧
    ((scoreTweet t c m).grade = Grade.F ↔
      0 ≤ (scoreTweet t c m).overall ∧ (scoreTweet t c m).overall < 35) := by
  cases c with
  | none => exact scoreTweetWith_grade_spec t defaultContext m false
  | some ctx => exact scoreTweetWith_grade_spec t ctx m true

/-- C5: scoring is a pure function of the draft tweet, the context and
the moment: two calls with identical arguments return identical
TweetScore records in every field, the timing sub-score and the predicted
reach included. -/
theorem scoreTweet_deterministic (t : DraftTweet) (c : Option UserContext)
    (m : Moment) : scoreTweet t c m = scoreTweet t c m := rfl

/-- C6 counterexample input: one external link together with seven
hashtags drives both the premium and the non-premium risk totals to the
30-point budget cap, so the breakdown risk values are equal. -/
def tweetCap : DraftTweet :=
  ⟨"Hello world", false, MediaType.none, 0, false, 1, false, false, 1, 7, 0,
   false, false, false, 11⟩

/-- The user context of the scoring-engine regression test. -/
def ctxTest : UserContext := ⟨1000, 100, false, false, 12, 1 / 50, 1⟩

/-- A fixed weekday mid-morning moment. -/
def momentTest : Moment := ⟨10, true⟩

theorem risk_premium_counterexample :
    1 ≤ tweetCap.externalLinks ∧
    ¬ ((scoreTweet tweetCap (some (setPremium ctxTest true)) momentTest).breakdown.risk <
       (scoreTweet tweetCap (some (setPremium ctxTest false)) momentTest).breakdown.risk) :=
  ⟨by decide, by decide⟩

/-- C6 (amended): for every tweet with at least one external link, if the
non-premium risk total does not exceed the 30-point budget cap then the
risk component is strictly greater for the non-premium context than for
the otherwise identical premium context. -/
theorem risk_nonpremium_gt_premium (t : DraftTweet) (c : UserContext) (m : Moment)
    (hl : 1 ≤ t.externalLinks) (hcap : riskRaw t (setPremium c false) ≤ 30) :
    (scoreTweet t (some (setPremium c true)) m).breakdown.risk <
    (scoreTweet t (some (setPremium c false)) m).breakdown.risk := by
  have hL : 1 ≤ zmax 0 t.externalLinks := by unfold zmax; split <;> omega
  have e1 : riskRaw t (setPremium c false) =
      zmax 0 t.externalLinks * 20 + baseRiskPenalty t := rfl
  have e2 : riskRaw t (setPremium c true) =
      zmax 0 t.externalLinks * 15 + baseRiskPenalty t := rfl
  show zmin 30 (riskRaw t (setPremium c true)) <
    zmin 30 (riskRaw t (setPremium c false))
  unfold zmin
  split_ifs <;> omega

/-- The draft tweet of the scoring-engine regression test: one external
link, no other penalties. -/
def tweetLink : DraftTweet :=
  ⟨"Read https://example.com", false, MediaType.none, 0, false, 1, false, false,
   1, 0, 0, false, false, false, 24⟩

theorem risk_nonpremium_gt_premium_witness :
    1 ≤ tweetLink.externalLinks ∧ riskRaw tweetLink (setPremium ctxTest false) ≤ 30 ∧
    (scoreTweet tweetLink (some (setPremium ctxTest true)) momentTest).breakdown.risk <
    (scoreTweet tweetLink (some (setPremium ctxTest false)) momentTest).breakdown.risk :=
  ⟨by decide, by decide,
   risk_nonpremium_gt_premium tweetLink ctxTest momentTest (by decide) (by decide)⟩
